import Mathlib

/-!
Shallow embedding of the OnFire-Displays task-completion and reward-ledger
subsystem, translated from:
  - src/frontend/src/pages/TaskManagementHUD.js  (cache, orchestrator, progress)
  - src/frontend/src/services/api.js             (transaction builders, task updates)

Modelling conventions:
  - JavaScript falsy-or defaults (`x || y`) are modelled by the `jsOr*` helpers:
    an Int is falsy exactly when it is 0, a String exactly when it is empty,
    an Option exactly when it is `none` or wraps a falsy value.
  - `Math.ceil(a / b)` on integers is `ceilDiv a b = -((-a).fdiv b)`.
  - React state updates are applied immediately (single logical timeline per
    conversation view); each orchestrator call is a function from the component
    state to a new state plus the lists of remote effects it submitted
    (task-status updates and ledger payloads) and the errors it reported via
    console.error.
  - The remote task update can succeed or fail; the `remoteOk` flag selects the
    branch. On failure the code calls loadTasks() to reload from the remote
    store; the reload outcome is passed in as the `reload` triple.
  - Wall-clock timestamps (new Date().toISOString()) enter as a `now` argument.
  - Presentation-only fields (avatar, color bucket, initial letter, cover
    images) are omitted; no claim mentions them.
-/

namespace OnFire

/-- JS `x || y` for numbers: 0 is falsy. -/
def jsOrInt (x y : Int) : Int := if x = 0 then y else x

/-- JS `x || y` for strings: the empty string is falsy. -/
def jsOrStr (x y : String) : String := if x = "" then y else x

/-- JS `x || y` where `x` is a possibly-missing number: null/undefined and 0 are falsy. -/
def jsOrOptInt (x : Option Int) (y : Int) : Int :=
  match x with
  | none => y
  | some v => if v = 0 then y else v

/-- JS `x || y` where `x` is a possibly-missing string: null/undefined and "" are falsy. -/
def jsOrOptStr (x : Option String) (y : String) : String :=
  match x with
  | none => y
  | some v => if v = "" then y else v

/-- JS truthiness test for a possibly-missing string: falsy iff absent or empty. -/
def jsFalsyOptStr (x : Option String) : Bool :=
  match x with
  | none => true
  | some v => v = ""

/-- Math.ceil(a / b) for an integer numerator and positive integer denominator. -/
def ceilDiv (a b : Int) : Int := -((-a).fdiv b)

/-- A task row as selected by api.js getTasks (fields the HUD logic reads).
progress_percentage is not part of the select list, so it is optional; the
optimistic reversal writes it. -/
structure Task where
  id : String
  title : String
  status : String
  completed_by_user_id : Option String
  created_by_user_id : Option String
  assignee_user_ids : List String
  estimated_time_minutes : Option Int
  budget_cost : Option Int
  progress_percentage : Option Int
  updated_at : String
deriving DecidableEq

/-- An entry of the derived people list (id and resolved first name; the
index-derived initial, color and avatar are presentational and omitted). -/
structure Person where
  id : String
  name : String
deriving DecidableEq

/-- The signed-in user record kept by the api client (localStorage user_data). -/
structure UserData where
  id : String
  first_name : Option String
  username : Option String
deriving DecidableEq

/-- A row of the user_profiles table as selected by getUserProfiles. -/
structure UserProfile where
  user_id : String
  display_name : Option String
  profile_photo_url : Option String
deriving DecidableEq

/-- The untyped metadata bag attached to a transaction payload. The forward
entry stores the completer under by_user (key completed_by), the reversal the
uncompleter (key uncompleted_by) together with reversal := true. -/
structure TxMetadata where
  task_id : String
  task_title : String
  by_user : Option String
  conversation_id : String
  reversal : Bool
deriving DecidableEq

/-- The argument record the HUD builds for createTransaction /
createReversalTransaction. related_entity_id is present only on the forward
path and is dropped by the builder (the remote column is integer-typed). -/
structure TransactionData where
  from_user_id : Option String
  to_user_id : Option String
  amount : Int
  fee : Int
  net_amount : Int
  related_entity_type : String
  related_entity_id : Option String
  description : String
  notes : String
  metadata : Option TxMetadata
deriving DecidableEq

/-- The payload POSTed to /transactions. -/
structure TransactionPayload where
  transaction_type : String
  status : String
  from_user_id : Option String
  to_user_id : Option String
  amount : Int
  currency : String
  fee : Int
  net_amount : Int
  related_entity_type : String
  description : String
  notes : String
  metadata : Option TxMetadata
deriving DecidableEq

/-- The PATCH body submitted by api.js updateTask for the two status flows. -/
structure TaskUpdate where
  taskId : String
  status : String
  completed_by_user_id : Option String
  progress_percentage : Int
  updated_at : String
deriving DecidableEq

/-- api.js createTransaction: fixed type "send", fixed currency, falsy-or
defaults for fee / net_amount / related_entity_type / description / notes;
metadata is copied when present and non-empty (both call sites pass a
non-empty bag); related_entity_id is deliberately not copied. -/
def createTransaction (d : TransactionData) : TransactionPayload :=
  { transaction_type := "send"
    status := "completed"
    from_user_id := d.from_user_id
    to_user_id := d.to_user_id
    amount := d.amount
    currency := "PRF"
    fee := jsOrInt d.fee 0
    net_amount := jsOrInt d.net_amount d.amount
    related_entity_type := jsOrStr d.related_entity_type "task"
    description := jsOrStr d.description ""
    notes := jsOrStr d.notes ""
    metadata := d.metadata }

/-- api.js createReversalTransaction: same builder with type "unsend". -/
def createReversalTransaction (d : TransactionData) : TransactionPayload :=
  { transaction_type := "unsend"
    status := "completed"
    from_user_id := d.from_user_id
    to_user_id := d.to_user_id
    amount := d.amount
    currency := "PRF"
    fee := jsOrInt d.fee 0
    net_amount := jsOrInt d.net_amount d.amount
    related_entity_type := jsOrStr d.related_entity_type "task"
    description := jsOrStr d.description ""
    notes := jsOrStr d.notes ""
    metadata := d.metadata }

/-- api.js completeTask: PATCH status completed, completer set, progress 100. -/
def apiCompleteTask (taskId userId now : String) : TaskUpdate :=
  { taskId := taskId, status := "completed", completed_by_user_id := some userId,
    progress_percentage := 100, updated_at := now }

/-- api.js uncompleteTask: PATCH status not_started, completer cleared, progress 0. -/
def apiUncompleteTask (taskId now : String) : TaskUpdate :=
  { taskId := taskId, status := "not_started", completed_by_user_id := none,
    progress_percentage := 0, updated_at := now }

/-- Modal banner data set by completeTask before the remote call. -/
structure ModalData where
  personName : String
  taskTitle : String
  coins : Int
deriving DecidableEq

/-- A per-person summary row returned by /rpc/transactions_summary; the
per-period maps are association lists in key order. -/
structure TransactionSummary where
  total_amount : Int
  daily_summary : List (String × Int)
  weekly_summary : List (String × Int)
  monthly_summary : List (String × Int)
deriving DecidableEq

/-- The TaskManagementHUD component state for one conversation. -/
structure HUDState where
  conversationId : String
  tasks : List Task
  completedTasks : List Task
  people : List Person
  showModal : Bool
  modalData : ModalData
  transactionSummaries : List (String × TransactionSummary)
deriving DecidableEq

/-- TaskManagementHUD getTaskCoins: ceil((estimated_time_minutes or 30) / 10).
The same expression is inlined at completeTask line 157, uncompleteTask
line 263 and the getPersonProgress fallback sum. -/
def getTaskCoins (t : Task) : Int := ceilDiv (jsOrOptInt t.estimated_time_minutes 30) 10

/-- The amount computed at completeTask lines 157-158 and uncompleteTask
lines 263-264: budget_cost when truthy, else the minutes-derived coins. -/
def taskRewardAmount (t : Task) : Int := jsOrOptInt t.budget_cost (getTaskCoins t)

/-- The optimistic cache mutation at completeTask lines 173-182: build the
updated record, drop the task from the active list, append it to completed. -/
def applyOptimisticCompletion (s : HUDState) (task : Task) (personId now : String) : HUDState :=
  let updatedTask : Task :=
    { task with status := "completed", completed_by_user_id := some personId, updated_at := now }
  { s with tasks := s.tasks.filter (fun t => t.id != task.id),
           completedTasks := s.completedTasks ++ [updatedTask] }

/-- The optimistic cache mutation at uncompleteTask lines 272-284: build the
reverted record, drop the task from the completed list, prepend it to active. -/
def applyOptimisticReversal (s : HUDState) (completedTask : Task) (now : String) : HUDState :=
  let revertedTask : Task :=
    { completedTask with status := "not_started", completed_by_user_id := none,
                         progress_percentage := some 0, updated_at := now }
  { s with completedTasks := s.completedTasks.filter (fun t => t.id != completedTask.id),
           tasks := revertedTask :: s.tasks }

/-- The outcome of one orchestrator call: the next component state, the remote
task-status updates submitted, the ledger payloads submitted, and the errors
reported via console.error. -/
structure StepResult where
  state : HUDState
  taskUpdates : List TaskUpdate
  ledgerEntries : List TransactionPayload
  errors : List String
deriving DecidableEq

/-- TaskManagementHUD completeTask (lines 148-248).
Steps, in source order: resolve task and person (silent return when either is
missing); the showModal re-entry guard; compute coins and amount; set the modal
data and show the modal; submit the remote status update; on success apply the
optimistic completion, then validate payer, personId and amount before
submitting the forward transaction; on remote failure reload the cache
(the reload argument is what loadTasks would install). The 3-second timer that
later clears showModal is a separate future event and is not part of the step. -/
def completeTask (s : HUDState) (taskId personId now : String)
    (remoteOk : Bool) (reload : List Task × List Task × List Person) : StepResult :=
  match s.tasks.find? (fun t => t.id == taskId), s.people.find? (fun p => p.id == personId) with
  | some task, some person =>
    if s.showModal then ⟨s, [], [], []⟩
    else
      let coins := ceilDiv (jsOrOptInt task.estimated_time_minutes 30) 10
      let amount := jsOrOptInt task.budget_cost coins
      let s1 := { s with modalData := ⟨person.name, task.title, coins⟩, showModal := true }
      let upd := apiCompleteTask taskId personId now
      if remoteOk then
        let s2 := applyOptimisticCompletion s1 task personId now
        if jsFalsyOptStr task.created_by_user_id then
          ⟨s2, [upd], [], ["missing_payer"]⟩
        else if personId = "" then
          ⟨s2, [upd], [], ["missing_person"]⟩
        else if amount ≤ 0 then
          ⟨s2, [upd], [], ["invalid_amount"]⟩
        else
          let txData : TransactionData :=
            { from_user_id := task.created_by_user_id
              to_user_id := some personId
              amount := amount
              fee := 0
              net_amount := amount
              related_entity_type := "task"
              related_entity_id := some taskId
              description := "Payment for completing task: " ++ task.title
              notes := "Task completed by " ++ person.name
              metadata := some ⟨taskId, task.title, some personId, s.conversationId, false⟩ }
          ⟨s2, [upd], [createTransaction txData], []⟩
      else
        ⟨{ s1 with tasks := reload.1, completedTasks := reload.2.1, people := reload.2.2 },
         [upd], [], ["complete_error"]⟩
  | _, _ => ⟨s, [], [], []⟩

/-- TaskManagementHUD uncompleteTask (lines 250-322).
Steps, in source order: find the task in the completed list (error and return
when missing); recompute coins and amount from the cached record and look up
the completer; submit the remote status update; on success apply the optimistic
reversal and submit the reversal transaction built from the same cached record;
on remote failure reload the cache. -/
def uncompleteTask (s : HUDState) (taskId now : String)
    (remoteOk : Bool) (reload : List Task × List Task × List Person) : StepResult :=
  match s.completedTasks.find? (fun t => t.id == taskId) with
  | none => ⟨s, [], [], ["task_not_found"]⟩
  | some completedTask =>
    let coins := ceilDiv (jsOrOptInt completedTask.estimated_time_minutes 30) 10
    let amount := jsOrOptInt completedTask.budget_cost coins
    let person : Option Person :=
      match completedTask.completed_by_user_id with
      | some cid => s.people.find? (fun p => p.id == cid)
      | none => none
    let upd := apiUncompleteTask taskId now
    if remoteOk then
      let s2 := applyOptimisticReversal s completedTask now
      let reversalData : TransactionData :=
        { from_user_id := completedTask.created_by_user_id
          to_user_id := completedTask.completed_by_user_id
          amount := amount
          fee := 0
          net_amount := amount
          related_entity_type := "task"
          related_entity_id := none
          description := "Reversal for uncompleted task: " ++ completedTask.title
          notes := "Task uncompleted by " ++
            (match person with
             | some p => jsOrStr p.name "user"
             | none => "user")
          metadata := some ⟨taskId, completedTask.title,
                            completedTask.completed_by_user_id, s.conversationId, true⟩ }
      ⟨s2, [upd], [createReversalTransaction reversalData], []⟩
    else
      ⟨{ s with tasks := reload.1, completedTasks := reload.2.1, people := reload.2.2 },
       [upd], [], ["uncomplete_error"]⟩

/-- The record returned by getPersonProgress. Heights are the exact rational
values of min((amount / bound) * 100, 100). -/
structure Progress where
  total : Int
  daily : Int
  weekly : Int
  monthly : Int
  dayHeight : ℚ
  weekHeight : ℚ
  monthHeight : ℚ
deriving DecidableEq

/-- Lookup in an association-list model of a JS object field access. -/
def lookupAmount (l : List (String × Int)) (k : String) : Option Int :=
  (l.find? (fun kv => kv.fst == k)).map Prod.snd

/-- TaskManagementHUD getPersonProgress (lines 329-372): with a remote summary,
absolute per-period amounts read from the summary maps (latest week = last
key); without one, the fallback sums ceil((estimated_time_minutes or 30) / 10)
over the tasks completed by the person. -/
def getPersonProgress (s : HUDState) (personId today currentMonth : String) : Progress :=
  match (s.transactionSummaries.find? (fun kv => kv.fst == personId)).map Prod.snd with
  | some summary =>
    let dailyAmount := |jsOrOptInt (lookupAmount summary.daily_summary today) 0|
    let weeklyAmount :=
      match summary.weekly_summary.getLast? with
      | some kv => |kv.snd|
      | none => 0
    let monthlyAmount := |jsOrOptInt (lookupAmount summary.monthly_summary currentMonth) 0|
    { total := |jsOrInt summary.total_amount 0|
      daily := dailyAmount
      weekly := weeklyAmount
      monthly := monthlyAmount
      dayHeight := min ((dailyAmount : ℚ) / 10 * 100) 100
      weekHeight := min ((weeklyAmount : ℚ) / 50 * 100) 100
      monthHeight := min ((monthlyAmount : ℚ) / 200 * 100) 100 }
  | none =>
    let personTasks := s.completedTasks.filter (fun t => t.completed_by_user_id == some personId)
    let totalCoins :=
      personTasks.foldl (fun sum t => sum + ceilDiv (jsOrOptInt t.estimated_time_minutes 30) 10) 0
    { total := totalCoins
      daily := totalCoins
      weekly := totalCoins
      monthly := totalCoins
      dayHeight := min ((totalCoins : ℚ) / 10 * 100) 100
      weekHeight := min ((totalCoins : ℚ) / 50 * 100) 100
      monthHeight := min ((totalCoins : ℚ) / 200 * 100) 100 }

/-- Insertion into the JS Set model: keep first-seen order, no duplicates. -/
def insertUnique (l : List String) (x : String) : List String :=
  if x ∈ l then l else l ++ [x]

/-- Add a possibly-missing user id to the set when it is truthy; mirrors the
if (task.completed_by_user_id) / if (task.created_by_user_id) guards. -/
def addIfTruthy (acc : List String) (x : Option String) : List String :=
  match x with
  | some v => if v = "" then acc else insertUnique acc v
  | none => acc

/-- First word of a display name: name.split(space)[0]. -/
def firstWord (s : String) : String := (s.splitOn " ").headD s

/-- Resolution of one people-list entry (loadTasks lines 104-134): profile
display name when a profile was fetched, else the signed-in user record when
the id matches, else a placeholder built from the id. -/
def derivePerson (userData : Option UserData) (profiles : List UserProfile)
    (userId : String) : Person :=
  let profile := profiles.find? (fun p => p.user_id == userId)
  let currentUserData :=
    match userData with
    | some ud => if userId = ud.id then some ud else none
    | none => none
  let name0 := "User " ++ userId.take 8
  let name :=
    match profile with
    | some p => firstWord (jsOrOptStr p.display_name name0)
    | none =>
      match currentUserData with
      | some ud => firstWord (jsOrOptStr ud.first_name (jsOrOptStr ud.username name0))
      | none => name0
  ⟨userId, name⟩

/-- The cache contents installed by one loadTasks run, plus the list of user
ids passed to getUserProfiles (empty when no profile fetch was issued). -/
structure LoadResult where
  tasks : List Task
  completedTasks : List Task
  people : List Person
  profileFetches : List String
deriving DecidableEq

/-- TaskManagementHUD loadTasks (lines 47-146) on a successful fetch: an empty
or null task list clears all three collections and returns before any profile
fetch; otherwise partition by status, collect unique user ids (signed-in user
first, then assignees, completers and creators in task order), fetch their
profiles and derive the people list. -/
def loadTasks (apiTasks : Option (List Task)) (userData : Option UserData)
    (profiles : List UserProfile) : LoadResult :=
  match apiTasks with
  | none => ⟨[], [], [], []⟩
  | some ts =>
    if ts.length = 0 then ⟨[], [], [], []⟩
    else
      let completed := ts.filter (fun t => t.status == "completed")
      let active := ts.filter (fun t => t.status != "completed")
      let ids0 : List String :=
        match userData with
        | some ud => if ud.id = "" then [] else [ud.id]
        | none => []
      let uniqueUserIds := ts.foldl (fun acc t =>
        let acc := t.assignee_user_ids.foldl insertUnique acc
        let acc := addIfTruthy acc t.completed_by_user_id
        addIfTruthy acc t.created_by_user_id) ids0
      let peopleList := uniqueUserIds.map (derivePerson userData profiles)
      ⟨active, completed, peopleList, uniqueUserIds⟩

/-- The spec section 8 state invariant: a task is Completed iff its completer
is recorded. -/
def statusInvariant (l : List Task) : Prop :=
  ∀ t ∈ l, (t.status = "completed" ↔ t.completed_by_user_id ≠ none)

/-- Test fixture: the section 8 scenario task (budget 50, payer p1). -/
def taskA : Task :=
  { id := "t1", title := "Clean Kitchen", status := "not_started",
    completed_by_user_id := none, created_by_user_id := some "p1",
    assignee_user_ids := [], estimated_time_minutes := some 25,
    budget_cost := some 50, progress_percentage := none,
    updated_at := "2025-11-20T10:00:00Z" }

/-- Test fixture: the payer. -/
def personP1 : Person := ⟨"p1", "Pat"⟩

/-- Test fixture: the completer. -/
def personP2 : Person := ⟨"p2", "Alex"⟩

/-- Test fixture: empty modal banner. -/
def emptyModal : ModalData := ⟨"", "", 0⟩

/-- Test fixture: conversation c1 with one active task and two people. -/
def stateA : HUDState :=
  { conversationId := "c1", tasks := [taskA], completedTasks := [],
    people := [personP1, personP2], showModal := false, modalData := emptyModal,
    transactionSummaries := [] }

/-- Test fixture: taskA as cached after completion by p2. -/
def taskACompleted : Task :=
  { taskA with status := "completed", completed_by_user_id := some "p2", updated_at := "T1" }

/-- Test fixture: cache holding the completed taskA. -/
def stateACompleted : HUDState :=
  { stateA with tasks := [], completedTasks := [taskACompleted] }

/-- Test fixture: the completed taskA with its budget edited to 60. -/
def taskAEdited60 : Task := { taskACompleted with budget_cost := some 60 }

/-- Test fixture: the cache after completing taskA (paid amount 50) once a
reload has brought in a remote budget edit to 60 on the still-completed task. -/
def stateBudgetEdited : HUDState :=
  { stateA with tasks := [], completedTasks := [taskAEdited60] }

/-- Test fixture: the completed taskA with a non-positive budget of -5. -/
def taskANegBudget : Task := { taskACompleted with budget_cost := some (-5) }

/-- Test fixture: a cache whose completed task has budget_cost -5. -/
def stateNegBudgetCompleted : HUDState :=
  { stateA with tasks := [], completedTasks := [taskANegBudget] }

/-- Claim C1 (code_bug evaluation). Completing taskA (budget 50) and then
uncompleting it submits a forward entry of type send with amount +50 and a
reversal entry of type unsend again with amount +50: createReversalTransaction
and the uncompleteTask caller never negate the amount, so the pair sums to 100,
not 0. The repository docs UNCOMPLETE_TASK_FLOW.md (lines 196-228) and the
Negative Reversal Amounts note state that the reversal is submitted with
amount := -amount, which the code does not do. -/
theorem c1_pair_sum_not_zero :
    ((completeTask stateA "t1" "p2" "T1" true ([], [], [])).ledgerEntries.map
      (fun e => (e.transaction_type, e.amount)) = [("send", 50)]) ∧
    ((uncompleteTask (completeTask stateA "t1" "p2" "T1" true ([], [], [])).state
        "t1" "T2" true ([], [], [])).ledgerEntries.map
      (fun e => (e.transaction_type, e.amount)) = [("unsend", 50)]) ∧
    (50 + 50 : Int) ≠ 0 :=
  ⟨rfl, rfl, by decide⟩

/-- Claim C2 (counterexample). Uncompleting a cached completed task whose
budget_cost is -5 submits a reversal entry carrying amount -5 and reports no
error: the submission operations do not reject amounts ≤ 0. -/
theorem c2_counterexample_no_rejection :
    ((uncompleteTask stateNegBudgetCompleted "t1" "T2" true ([], [], [])).ledgerEntries.map
      (fun e => e.amount) = [-5]) ∧
    (uncompleteTask stateNegBudgetCompleted "t1" "T2" true ([], [], [])).errors = [] ∧
    (-5 : Int) ≤ 0 :=
  ⟨rfl, rfl, by decide⟩

/-- Claim C2 (amended). createTransaction and createReversalTransaction differ
only in the fixed transaction_type tag (send versus unsend); both pass the
given amount through unchanged, with no sign flip and no validation. -/
theorem c2_builders_differ_only_in_tag (d : TransactionData) :
    createReversalTransaction d =
      { createTransaction d with transaction_type := "unsend" } ∧
    (createTransaction d).transaction_type = "send" ∧
    (createTransaction d).amount = d.amount ∧
    (createReversalTransaction d).amount = d.amount :=
  ⟨rfl, rfl, rfl, rfl⟩

/-- Claim C4 (counterexample). taskA is completed with budget 50 (forward entry
amount 50); after a reload reflects a budget edit to 60 on the still-completed
task, uncompleting submits a reversal of amount 60, not the 50 captured at
completion time. -/
theorem c4_counterexample_fresh_recompute :
    ((completeTask stateA "t1" "p2" "T1" true ([], [], [])).ledgerEntries.map
      (fun e => e.amount) = [50]) ∧
    ((uncompleteTask stateBudgetEdited "t1" "T2" true ([], [], [])).ledgerEntries.map
      (fun e => e.amount) = [60]) ∧
    (60 : Int) ≠ 50 :=
  ⟨rfl, rfl, by decide⟩

/-- Claim C4 (amended). uncompleteTask recomputes the reversal amount from the
cached completed record at uncompletion time (budget_cost when truthy, else the
minutes-derived coins) and submits exactly one unsend entry with that amount;
no completion-time amount is consulted. -/
theorem c4_reversal_uses_current_amount (s : HUDState) (taskId now : String)
    (r : List Task × List Task × List Person) (ot : Task)
    (h : s.completedTasks.find? (fun t => t.id == taskId) = some ot) :
    ((uncompleteTask s taskId now true r).ledgerEntries.map
      (fun e => (e.transaction_type, e.amount))) = [("unsend", taskRewardAmount ot)] := by
  unfold uncompleteTask
  rw [h]
  simp [createReversalTransaction, taskRewardAmount, getTaskCoins]

/-- Witness for c4_reversal_uses_current_amount at the edited-budget fixture. -/
theorem c4_reversal_uses_current_amount_witness :
    ((uncompleteTask stateBudgetEdited "t1" "T2" true ([], [], [])).ledgerEntries.map
      (fun e => (e.transaction_type, e.amount))) =
      [("unsend", taskRewardAmount taskAEdited60)] :=
  c4_reversal_uses_current_amount stateBudgetEdited "t1" "T2" ([], [], []) taskAEdited60 rfl

/-- Helper: a left fold accumulating f over a list equals the start value plus
the sum of the mapped list. -/
theorem foldl_add_eq_sum_map (f : Task → Int) (l : List Task) (a : Int) :
    l.foldl (fun acc t => acc + f t) a = a + (l.map f).sum := by
  induction l generalizing a with
  | nil => simp
  | cons x xs ih =>
    simp only [List.foldl_cons, List.map_cons, List.sum_cons, ih]
    ring

/-- Claim C5 (counterexample). Person p2 has one completed task with explicit
budget 50 and 25 estimated minutes and no remote summary; the fallback total
is 3 (the minutes-derived coins), not the 50 the rewardAmount definition
(budget first) would give. -/
theorem c5_counterexample_budget_ignored :
    (getPersonProgress stateACompleted "p2" "2025-11-21" "2025-11").total = 3 ∧
    (3 : Int) ≠ 50 :=
  ⟨rfl, by decide⟩

/-- Claim C5 (amended). Absent a remote summary for the person,
getPersonProgress always returns a record (never null) whose total is the sum
of ceil((estimated_time_minutes or 30) / 10) over the tasks completed by that
person, ignoring any explicit budget_cost; daily, weekly and monthly equal
that total. -/
theorem c5_fallback_sums_minutes_coins (s : HUDState) (personId today currentMonth : String)
    (h : s.transactionSummaries.find? (fun kv => kv.fst == personId) = none) :
    (getPersonProgress s personId today currentMonth).total =
      ((s.completedTasks.filter (fun t => t.completed_by_user_id == some personId)).map
        getTaskCoins).sum ∧
    (getPersonProgress s personId today currentMonth).daily =
      (getPersonProgress s personId today currentMonth).total ∧
    (getPersonProgress s personId today currentMonth).weekly =
      (getPersonProgress s personId today currentMonth).total ∧
    (getPersonProgress s personId today currentMonth).monthly =
      (getPersonProgress s personId today currentMonth).total := by
  unfold getPersonProgress
  rw [h]
  simp only [Option.map_none]
  refine ⟨?_, rfl, rfl, rfl⟩
  simpa [getTaskCoins] using
    foldl_add_eq_sum_map getTaskCoins
      (s.completedTasks.filter (fun t => t.completed_by_user_id == some personId)) 0

/-- Test fixture: active taskA with a non-positive budget of -10. -/
def taskANegActive : Task := { taskA with budget_cost := some (-10) }

/-- Test fixture: conversation with the negative-budget active task. -/
def stateNegActive : HUDState := { stateA with tasks := [taskANegActive] }

/-- Claim C3 (counterexample). Completing the active task with budget -10
(computed amount -10 ≤ 0) still submits the remote status update, moves the
task to the completed collection with status completed, and only then skips
the ledger entry with an invalid-amount report: the failure is not pre-call
and the cache is mutated. -/
theorem c3_counterexample_late_check :
    (completeTask stateNegActive "t1" "p2" "T1" true ([], [], [])).taskUpdates =
      [apiCompleteTask "t1" "p2" "T1"] ∧
    (completeTask stateNegActive "t1" "p2" "T1" true ([], [], [])).state.tasks = [] ∧
    ((completeTask stateNegActive "t1" "p2" "T1" true ([], [], [])).state.completedTasks.map
      (fun t => t.status)) = ["completed"] ∧
    (completeTask stateNegActive "t1" "p2" "T1" true ([], [], [])).ledgerEntries = [] ∧
    (completeTask stateNegActive "t1" "p2" "T1" true ([], [], [])).errors = ["invalid_amount"] :=
  ⟨rfl, rfl, rfl, rfl, rfl⟩

/-- Claim C3 (amended). When the computed reward amount is not positive,
completeTask skips the forward ledger submission and reports an invalid-amount
error, but only after the remote status update has been submitted and the
optimistic cache mutation applied; neither is rolled back. -/
theorem c3_invalid_amount_after_commit (s : HUDState) (taskId personId now : String)
    (r : List Task × List Task × List Person) (task : Task) (person : Person)
    (h1 : s.tasks.find? (fun t => t.id == taskId) = some task)
    (h2 : s.people.find? (fun p => p.id == personId) = some person)
    (h3 : s.showModal = false)
    (h4 : jsFalsyOptStr task.created_by_user_id = false)
    (h5 : personId ≠ "")
    (h6 : taskRewardAmount task ≤ 0) :
    (completeTask s taskId personId now true r).taskUpdates =
      [apiCompleteTask taskId personId now] ∧
    (completeTask s taskId personId now true r).ledgerEntries = [] ∧
    (completeTask s taskId personId now true r).errors = ["invalid_amount"] ∧
    (completeTask s taskId personId now true r).state.tasks =
      s.tasks.filter (fun t => t.id != task.id) ∧
    { task with status := "completed", completed_by_user_id := some personId,
                updated_at := now } ∈
      (completeTask s taskId personId now true r).state.completedTasks := by
  simp only [taskRewardAmount, getTaskCoins] at h6
  unfold completeTask
  rw [h1, h2]
  simp [h3, h4, h5, h6, applyOptimisticCompletion]

/-- Witness for c3_invalid_amount_after_commit at the negative-budget fixture. -/
theorem c3_invalid_amount_after_commit_witness :
    (completeTask stateNegActive "t1" "p2" "T1" true ([], [], [])).taskUpdates =
      [apiCompleteTask "t1" "p2" "T1"] ∧
    (completeTask stateNegActive "t1" "p2" "T1" true ([], [], [])).ledgerEntries = [] ∧
    (completeTask stateNegActive "t1" "p2" "T1" true ([], [], [])).errors = ["invalid_amount"] ∧
    (completeTask stateNegActive "t1" "p2" "T1" true ([], [], [])).state.tasks =
      stateNegActive.tasks.filter (fun t => t.id != taskANegActive.id) ∧
    { taskANegActive with status := "completed", completed_by_user_id := some "p2",
                          updated_at := "T1" } ∈
      (completeTask stateNegActive "t1" "p2" "T1" true ([], [], [])).state.completedTasks :=
  c3_invalid_amount_after_commit stateNegActive "t1" "p2" "T1" ([], [], [])
    taskANegActive personP2 rfl rfl rfl rfl (by decide) (by decide)

/-- Test fixture: taskA without a creator (createdByUserId null). -/
def taskANoPayer : Task := { taskA with created_by_user_id := none }

/-- Test fixture: conversation whose active task has no payer. -/
def stateNoPayer : HUDState := { stateA with tasks := [taskANoPayer] }

/-- Claim C6. Completing a task whose created_by_user_id is null still submits
the remote status update and applies the optimistic completion (the task ends
in the completed collection with status completed and the completer set),
submits zero ledger entries, reports the missing-payer error, and rolls
nothing back. -/
theorem c6_missing_payer_commits (s : HUDState) (taskId personId now : String)
    (r : List Task × List Task × List Person) (task : Task) (person : Person)
    (h1 : s.tasks.find? (fun t => t.id == taskId) = some task)
    (h2 : s.people.find? (fun p => p.id == personId) = some person)
    (h3 : s.showModal = false)
    (h4 : task.created_by_user_id = none) :
    (completeTask s taskId personId now true r).taskUpdates =
      [apiCompleteTask taskId personId now] ∧
    (completeTask s taskId personId now true r).ledgerEntries = [] ∧
    (completeTask s taskId personId now true r).errors = ["missing_payer"] ∧
    (completeTask s taskId personId now true r).state.tasks =
      s.tasks.filter (fun t => t.id != task.id) ∧
    { task with status := "completed", completed_by_user_id := some personId,
                updated_at := now } ∈
      (completeTask s taskId personId now true r).state.completedTasks := by
  unfold completeTask
  rw [h1, h2]
  simp [h3, h4, jsFalsyOptStr, applyOptimisticCompletion]

/-- Witness for c6_missing_payer_commits at the payerless fixture. -/
theorem c6_missing_payer_commits_witness :
    (completeTask stateNoPayer "t1" "p2" "T1" true ([], [], [])).taskUpdates =
      [apiCompleteTask "t1" "p2" "T1"] ∧
    (completeTask stateNoPayer "t1" "p2" "T1" true ([], [], [])).ledgerEntries = [] ∧
    (completeTask stateNoPayer "t1" "p2" "T1" true ([], [], [])).errors = ["missing_payer"] ∧
    (completeTask stateNoPayer "t1" "p2" "T1" true ([], [], [])).state.tasks =
      stateNoPayer.tasks.filter (fun t => t.id != taskANoPayer.id) ∧
    { taskANoPayer with status := "completed", completed_by_user_id := some "p2",
                        updated_at := "T1" } ∈
      (completeTask stateNoPayer "t1" "p2" "T1" true ([], [], [])).state.completedTasks :=
  c6_missing_payer_commits stateNoPayer "t1" "p2" "T1" ([], [], [])
    taskANoPayer personP2 rfl rfl rfl rfl

/-- Witness for c5_fallback_sums_minutes_coins at the completed-task fixture. -/
theorem c5_fallback_sums_minutes_coins_witness :
    (getPersonProgress stateACompleted "p2" "2025-11-21" "2025-11").total =
      ((stateACompleted.completedTasks.filter
        (fun t => t.completed_by_user_id == some "p2")).map getTaskCoins).sum ∧
    (getPersonProgress stateACompleted "p2" "2025-11-21" "2025-11").daily =
      (getPersonProgress stateACompleted "p2" "2025-11-21" "2025-11").total ∧
    (getPersonProgress stateACompleted "p2" "2025-11-21" "2025-11").weekly =
      (getPersonProgress stateACompleted "p2" "2025-11-21" "2025-11").total ∧
    (getPersonProgress stateACompleted "p2" "2025-11-21" "2025-11").monthly =
      (getPersonProgress stateACompleted "p2" "2025-11-21" "2025-11").total :=
  c5_fallback_sums_minutes_coins stateACompleted "p2" "2025-11-21" "2025-11" rfl

/-- Helper: one completeTask call submits at most one status update and at
most one ledger entry. -/
theorem completeTask_single_bounds (s : HUDState) (taskId personId now : String)
    (ok : Bool) (r : List Task × List Task × List Person) :
    (completeTask s taskId personId now ok r).taskUpdates.length ≤ 1 ∧
    (completeTask s taskId personId now ok r).ledgerEntries.length ≤ 1 := by
  unfold completeTask
  split
  · dsimp only
    split_ifs <;> simp
  · simp

/-- Helper: with the modal already showing, completeTask is a no-op. -/
theorem completeTask_noop_of_showModal (s : HUDState) (taskId personId now : String)
    (ok : Bool) (r : List Task × List Task × List Person) (h : s.showModal = true) :
    completeTask s taskId personId now ok r = ⟨s, [], [], []⟩ := by
  unfold completeTask
  split
  · simp [h]
  · rfl

/-- Helper: a completeTask call that submitted no status update did nothing. -/
theorem completeTask_noop_char (s : HUDState) (taskId personId now : String)
    (ok : Bool) (r : List Task × List Task × List Person)
    (h : (completeTask s taskId personId now ok r).taskUpdates = []) :
    completeTask s taskId personId now ok r = ⟨s, [], [], []⟩ := by
  revert h
  unfold completeTask
  split
  · dsimp only
    split_ifs <;> simp
  · simp

/-- Helper: after a completeTask call that did submit a status update, the
resulting state has the modal showing (the re-entry guard engaged). -/
theorem completeTask_showModal_after (s : HUDState) (taskId personId now : String)
    (ok : Bool) (r : List Task × List Task × List Person)
    (h : (completeTask s taskId personId now ok r).taskUpdates ≠ []) :
    (completeTask s taskId personId now ok r).state.showModal = true := by
  revert h
  unfold completeTask
  split
  · dsimp only
    split_ifs <;> simp [applyOptimisticCompletion]
  · simp

/-- Claim C7. Calling completeTask twice in a row on the same task performs at
most one remote status update and at most one forward ledger entry across the
two calls: the second call is stopped by the showModal re-entry guard (or, when
the first call did nothing, the pair is bounded by the first no-op plus the
second single call). -/
theorem c7_completeTask_twice_at_most_one (s : HUDState) (taskId personId now1 now2 : String)
    (ok1 ok2 : Bool) (r1 r2 : List Task × List Task × List Person) :
    (completeTask s taskId personId now1 ok1 r1).taskUpdates.length +
      (completeTask (completeTask s taskId personId now1 ok1 r1).state
        taskId personId now2 ok2 r2).taskUpdates.length ≤ 1 ∧
    (completeTask s taskId personId now1 ok1 r1).ledgerEntries.length +
      (completeTask (completeTask s taskId personId now1 ok1 r1).state
        taskId personId now2 ok2 r2).ledgerEntries.length ≤ 1 := by
  by_cases h : (completeTask s taskId personId now1 ok1 r1).taskUpdates = []
  · have hch := completeTask_noop_char s taskId personId now1 ok1 r1 h
    rw [hch]
    have hb := completeTask_single_bounds s taskId personId now2 ok2 r2
    constructor
    · simpa using hb.1
    · simpa using hb.2
  · have hM := completeTask_showModal_after s taskId personId now1 ok1 r1 h
    rw [completeTask_noop_of_showModal _ taskId personId now2 ok2 r2 hM]
    have hb := completeTask_single_bounds s taskId personId now1 ok1 r1
    constructor
    · simpa using hb.1
    · simpa using hb.2

/-- Claim C8. Both optimistic cache mutations preserve the invariant that a
task has status completed exactly when its completer is recorded: the
completion writes status completed together with a completer, the reversal
writes status not_started together with a cleared completer, and every other
task is untouched. -/
theorem c8_optimistic_mutations_preserve_invariant (s : HUDState) (task : Task)
    (personId now : String)
    (h : statusInvariant (s.tasks ++ s.completedTasks)) :
    statusInvariant ((applyOptimisticCompletion s task personId now).tasks ++
      (applyOptimisticCompletion s task personId now).completedTasks) ∧
    statusInvariant ((applyOptimisticReversal s task now).tasks ++
      (applyOptimisticReversal s task now).completedTasks) := by
  constructor
  · intro t ht
    simp only [applyOptimisticCompletion, List.mem_append, List.mem_filter,
      List.mem_singleton] at ht
    rcases ht with ⟨htl, _⟩ | htc | hte
    · exact h t (List.mem_append.mpr (Or.inl htl))
    · exact h t (List.mem_append.mpr (Or.inr htc))
    · subst hte
      simp
  · intro t ht
    simp only [applyOptimisticReversal, List.mem_append, List.mem_cons,
      List.mem_filter] at ht
    rcases ht with (hte | htl) | ⟨htc, _⟩
    · subst hte
      simp
    · exact h t (List.mem_append.mpr (Or.inl htl))
    · exact h t (List.mem_append.mpr (Or.inr htc))

/-- Witness for c8_optimistic_mutations_preserve_invariant at the base
fixture state. -/
theorem c8_optimistic_mutations_preserve_invariant_witness :
    statusInvariant ((applyOptimisticCompletion stateA taskA "p2" "T1").tasks ++
      (applyOptimisticCompletion stateA taskA "p2" "T1").completedTasks) ∧
    statusInvariant ((applyOptimisticReversal stateA taskA "T1").tasks ++
      (applyOptimisticReversal stateA taskA "T1").completedTasks) :=
  c8_optimistic_mutations_preserve_invariant stateA taskA "p2" "T1"
    (by unfold statusInvariant; decide)

/-- Test fixture: taskA with neither an explicit budget nor estimated minutes. -/
def taskADefault : Task :=
  { taskA with estimated_time_minutes := none, budget_cost := none }

/-- Test fixture: conversation whose task carries no budget and no minutes. -/
def stateDefault : HUDState := { stateA with tasks := [taskADefault] }

/-- Test fixture: taskA with an explicit budget of 0. -/
def taskAZeroBudget : Task := { taskA with budget_cost := some 0 }

/-- Claim C9. A task with no budget_cost and no estimated_time_minutes gets
coins ceil(30/10) = 3 and reward amount 3 everywhere: getTaskCoins and
taskRewardAmount give 3 generally, the concrete completion submits a forward
entry of amount 3 with no invalid-amount error, the following uncompletion
submits a reversal of amount 3, and the fallback earnings sum for the
completer is 3; and a budget_cost of exactly 0 is falsy, so the amount falls
back to the minutes-derived coins. -/
theorem c9_default_amount_and_zero_budget :
    (∀ t : Task, t.estimated_time_minutes = none → t.budget_cost = none →
      getTaskCoins t = 3 ∧ taskRewardAmount t = 3) ∧
    (∀ t : Task, t.budget_cost = some 0 → taskRewardAmount t = getTaskCoins t) ∧
    ((completeTask stateDefault "t1" "p2" "T1" true ([], [], [])).ledgerEntries.map
      (fun e => e.amount) = [3]) ∧
    (completeTask stateDefault "t1" "p2" "T1" true ([], [], [])).errors = [] ∧
    ((uncompleteTask (completeTask stateDefault "t1" "p2" "T1" true ([], [], [])).state
        "t1" "T2" true ([], [], [])).ledgerEntries.map (fun e => e.amount) = [3]) ∧
    (getPersonProgress (completeTask stateDefault "t1" "p2" "T1" true ([], [], [])).state
      "p2" "2025-11-21" "2025-11").total = 3 := by
  refine ⟨?_, ?_, rfl, rfl, rfl, rfl⟩
  · intro t hm hb
    constructor
    · simp [getTaskCoins, jsOrOptInt, hm]
      decide
    · simp [taskRewardAmount, getTaskCoins, jsOrOptInt, hm, hb]
      decide
  · intro t hb
    simp [taskRewardAmount, jsOrOptInt, hb]

/-- Witness for c9_default_amount_and_zero_budget at the concrete fixtures. -/
theorem c9_default_amount_and_zero_budget_witness :
    (getTaskCoins taskADefault = 3 ∧ taskRewardAmount taskADefault = 3) ∧
    taskRewardAmount taskAZeroBudget = getTaskCoins taskAZeroBudget :=
  ⟨c9_default_amount_and_zero_budget.1 taskADefault rfl rfl,
   c9_default_amount_and_zero_budget.2.1 taskAZeroBudget rfl⟩

/-- Test fixture: a signed-in user record. -/
def userDataU : UserData := ⟨"u1", some "Sam", some "sam123"⟩

/-- Claim C10. Loading a conversation whose task fetch returns null or an empty
list leaves the cache with empty active, completed and people collections and
issues no user-profile fetch, so in particular the signed-in user does not
appear in the derived people list. -/
theorem c10_empty_load_clears_everything (apiTasks : Option (List Task))
    (userData : Option UserData) (profiles : List UserProfile)
    (h : apiTasks = none ∨ apiTasks = some []) :
    loadTasks apiTasks userData profiles = ⟨[], [], [], []⟩ := by
  rcases h with h | h <;> subst h <;> rfl

/-- Witness for c10_empty_load_clears_everything on both empty shapes, with a
signed-in user present. -/
theorem c10_empty_load_clears_everything_witness :
    loadTasks none (some userDataU) [] = ⟨[], [], [], []⟩ ∧
    loadTasks (some []) (some userDataU) [] = ⟨[], [], [], []⟩ :=
  ⟨c10_empty_load_clears_everything none (some userDataU) [] (Or.inl rfl),
   c10_empty_load_clears_everything (some []) (some userDataU) [] (Or.inr rfl)⟩

end OnFire
